import Mathlib

/-!
Verification development for the EnergiTech consolidation pipeline
(`scripts/transform.py`, `scripts/load.py`, `scripts/main_pipeline.py`).

The Python source is shallowly embedded: rows (Python dicts) become Lean
structures, numeric values become `ℚ`, timestamps become `Int` seconds on the
proleptic Gregorian calendar (naive-UTC, matching the `TIMESTAMP WITHOUT TIME
ZONE` convention of the target table), Python `None` becomes `Option.none`, and
code that can raise returns `Except String`.

External library behaviour used by the source (`pytz` Europe/Paris,
`dateutil.parser.parse`, Python `float`/`int`/`round`) is modelled explicitly
where the pipeline depends on it; each such model is marked in its doc comment.
-/

namespace Pipeline

/-! ## Calendar arithmetic

Days since the Unix epoch (1970-01-01) for a proleptic Gregorian civil date,
standard era-based algorithm.  Valid for years ≥ 1, which the date parser
guarantees (mirroring `datetime`'s year ≥ 1 constraint). -/

def isLeap (y : Nat) : Bool :=
  y % 4 == 0 && (y % 100 != 0 || y % 400 == 0)

def daysInMonth (y m : Nat) : Nat :=
  if m = 1 then 31 else if m = 2 then (if isLeap y then 29 else 28)
  else if m = 3 then 31 else if m = 4 then 30 else if m = 5 then 31
  else if m = 6 then 30 else if m = 7 then 31 else if m = 8 then 31
  else if m = 9 then 30 else if m = 10 then 31 else if m = 11 then 30
  else 31

def daysFromCivil (y m d : Nat) : Int :=
  let y' : Nat := if m ≤ 2 then y - 1 else y
  let era : Nat := y' / 400
  let yoe : Nat := y' % 400
  let mp : Nat := (m + 9) % 12
  let doy : Nat := (153 * mp + 2) / 5 + (d - 1)
  let doe : Nat := yoe * 365 + yoe / 4 - yoe / 100 + doy
  (era * 146097 + doe : Int) - 719468

/-- A civil (wall-clock) date-time, second precision. -/
structure Civil where
  y : Nat
  mo : Nat
  d : Nat
  h : Nat
  mi : Nat
  s : Nat
deriving DecidableEq

/-- Seconds since the Unix epoch of a civil date-time read as UTC. -/
def civilSecs (c : Civil) : Int :=
  daysFromCivil c.y c.mo c.d * 86400 + (c.h * 3600 + c.mi * 60 + c.s : Nat)

/-- Day of week of an epoch day number, 0 = Sunday (1970-01-01 was a Thursday). -/
def dow (z : Int) : Int := (z + 4) % 7

/-- Day of month of the last Sunday of month `m` in year `y`. -/
def lastSundayDay (y m : Nat) : Nat :=
  let L := daysInMonth y m
  L - (dow (daysFromCivil y m L)).toNat

/-! ## Europe/Paris localization

Models `pytz.timezone("Europe/Paris").localize` on naive wall times (EU rule
since 1996: DST from the last Sunday of March, 02:00 CET, to the last Sunday of
October, 03:00 CEST; `localize`'s default `is_dst=False` resolves the skipped
and the ambiguous hour to standard time, CET = UTC+1). -/

def parisOffset (c : Civil) : Int :=
  let t := civilSecs c
  let marT := civilSecs ⟨c.y, 3, lastSundayDay c.y 3, 3, 0, 0⟩
  let octT := civilSecs ⟨c.y, 10, lastSundayDay c.y 10, 2, 0, 0⟩
  if marT ≤ t ∧ t < octT then 7200 else 3600

/-- Localize a naive Paris wall time and convert it to (naive) UTC seconds. -/
def parisLocalizeToUtc (c : Civil) : Int :=
  civilSecs c - parisOffset c

/-! ## Character-level string utilities

Library string functions (`String.splitOn`, `String.trim`, `String.toUpper`)
are re-implemented here by structural recursion over the character list, so
that concrete runs of the embedded pipeline reduce inside the kernel. -/

/-- Split a character list on a separator character (`str.split(c)`). -/
def splitOnChar (c : Char) : List Char → List (List Char)
  | [] => [[]]
  | x :: xs =>
    let r := splitOnChar c xs
    if x = c then [] :: r
    else
      match r with
      | [] => [[x]]
      | g :: gs => (x :: g) :: gs

/-- Strip leading and trailing whitespace (`str.strip()`). -/
def trimChars (l : List Char) : List Char :=
  ((l.dropWhile Char.isWhitespace).reverse.dropWhile Char.isWhitespace).reverse

/-- Decimal value of a digit list. -/
def digVal (l : List Char) : Nat :=
  l.foldl (fun acc c => acc * 10 + (c.toNat - 48)) 0

/-- Parse a non-empty all-digit list (`int(str)` on simple decimals). -/
def natOfChars (l : List Char) : Option Nat :=
  if l ≠ [] ∧ l.all Char.isDigit then some (digVal l) else none

/-- Python `str.upper()` (ASCII range, the only ids the pipeline carries). -/
def pyUpper (s : String) : String :=
  String.mk (s.data.map Char.toUpper)

/-! ## String-to-number models

`pyFloat` models Python `float(str)` on plain decimal literals (optional sign,
optional single decimal point), the shapes the production CSV contract carries;
exponent/infinity/nan spellings are outside the pipeline's input contract. -/

def pyFloat (s : String) : Option ℚ :=
  let t := trimChars s.data
  let (neg, body) : Bool × List Char :=
    match t with
    | '-' :: rest => (true, rest)
    | '+' :: rest => (false, rest)
    | _ => (false, t)
  let signed : Nat → Nat → ℚ := fun n d =>
    if neg then Rat.divInt (-(n : Int)) (d : Int) else Rat.divInt (n : Int) (d : Int)
  match splitOnChar '.' body with
  | [w] =>
    if w ≠ [] ∧ w.all Char.isDigit then some (signed (digVal w) 1) else none
  | [w, f] =>
    if (w ≠ [] ∨ f ≠ []) ∧ w.all Char.isDigit ∧ f.all Char.isDigit
    then some (signed (digVal w * 10 ^ f.length + digVal f) (10 ^ f.length))
    else none
  | _ => none

/-- Truncation toward zero, Python `int(float)`: the integer quotient of the
reduced numerator by the denominator. -/
def pyIntTrunc (q : ℚ) : Int := q.num.tdiv q.den

/-! ## ISO 8601 parsing

Models `dateutil.parser.parse` on the layouts the pipeline feeds it — date-only
`YYYY-MM-DD` and `YYYY-MM-DDTHH:MM[:SS]`, with an optional `Z`/`+HH:MM`/`-HH:MM`
offset on the time part.  Returns the civil components plus the explicit UTC
offset in seconds when one is present; `none` for anything unparseable. -/

def parseYmd (l : List Char) : Option (Nat × Nat × Nat) :=
  match splitOnChar '-' l with
  | [ys, ms, ds] =>
    match natOfChars ys, natOfChars ms, natOfChars ds with
    | some y, some m, some d =>
      if ys.length = 4 ∧ 1 ≤ y ∧ 1 ≤ m ∧ m ≤ 12 ∧ 1 ≤ d ∧ d ≤ daysInMonth y m
      then some (y, m, d) else none
    | _, _, _ => none
  | _ => none

def parseHms (l : List Char) : Option (Nat × Nat × Nat) :=
  match splitOnChar ':' l with
  | [hs, ms] =>
    match natOfChars hs, natOfChars ms with
    | some h, some m => if h < 24 ∧ m < 60 then some (h, m, 0) else none
    | _, _ => none
  | [hs, ms, ss] =>
    match natOfChars hs, natOfChars ms, natOfChars ss with
    | some h, some m, some sec =>
      if h < 24 ∧ m < 60 ∧ sec < 60 then some (h, m, sec) else none
    | _, _, _ => none
  | _ => none

def parseOffsetHm (l : List Char) : Option Int :=
  match splitOnChar ':' l with
  | [hs, ms] =>
    match natOfChars hs, natOfChars ms with
    | some h, some m =>
      if h < 24 ∧ m < 60 then some ((h * 3600 + m * 60 : Nat) : Int) else none
    | _, _ => none
  | _ => none

def parseTimePart (l : List Char) : Option ((Nat × Nat × Nat) × Option Int) :=
  if l.getLast? = some 'Z' then
    (parseHms l.dropLast).map (fun hms => (hms, some 0))
  else
    match splitOnChar '+' l with
    | [t, off] =>
      match parseHms t, parseOffsetHm off with
      | some hms, some o => some (hms, some o)
      | _, _ => none
    | [t] =>
      match splitOnChar '-' t with
      | [t2, off] =>
        match parseHms t2, parseOffsetHm off with
        | some hms, some o => some (hms, some (-o))
        | _, _ => none
      | [t2] => (parseHms t2).map (fun hms => (hms, none))
      | _ => none
    | _ => none

def parseIso (s : String) : Option (Civil × Option Int) :=
  match splitOnChar 'T' s.data with
  | [ds] => (parseYmd ds).map (fun (y, m, d) => (⟨y, m, d, 0, 0, 0⟩, none))
  | [ds, ts] =>
    match parseYmd ds, parseTimePart ts with
    | some (y, m, d), some ((h, mi, sec), off) => some (⟨y, m, d, h, mi, sec⟩, off)
    | _, _ => none
  | _ => none

/-! ## transform.py — unit conversions and flag coercion -/

/-- `round(x, 2)` model over `ℚ`.  Python rounds ties to even; the pipeline's
claims never touch a half-ulp tie, so the tie direction is immaterial here. -/
def round2 (q : ℚ) : ℚ := (round (q * 100) : ℚ) / 100

/-- `transform.celsius_to_kelvin`: `None`/non-numeric → `None`, else
`round(float(c) + 273.15, 2)`.  Inputs come from JSON numeric arrays, embedded
as `Option ℚ`. -/
def celsius_to_kelvin (c : Option ℚ) : Option ℚ :=
  match c with
  | none => none
  | some x => some (round2 (x + 273.15))

/-- `transform.kmh_to_ms`: `None`/non-numeric → `None`, else
`round(float(k) / 3.6, 2)`. -/
def kmh_to_ms (k : Option ℚ) : Option ℚ :=
  match k with
  | none => none
  | some x => some (round2 (x / 3.6))

/-- `transform.safe_bool_int` on a CSV cell (`None` = missing / `pd.isna`).
`pd.isna(val) or val == ""` → `False`; else `bool(int(float(val)))`, any
exception (non-numeric string) → `False`. -/
def safe_bool_int (val : Option String) : Bool :=
  match val with
  | none => false
  | some s =>
    if s = "" then false
    else
      match pyFloat s with
      | none => false
      | some q => pyIntTrunc q ≠ 0

/-! ## transform.py — parse_date -/

/-- A Python `datetime`: naive wall-clock seconds plus `utcoffset()` in seconds
(`none` = naive, no `tzinfo`). -/
structure PyDatetime where
  wall : Int
  off : Option Int
deriving DecidableEq

/-- The values `transform.parse_date` receives: Python `None`, a `datetime`
object (DB rows), or a string (CSV and API rows). -/
inductive DateInput where
  | noneV : DateInput
  | dt : PyDatetime → DateInput
  | str : String → DateInput
deriving DecidableEq

/-- `transform.parse_date`.  `if not date_obj` catches `None` and the empty
string; a `datetime` with `tzinfo` is `astimezone(utc).replace(tzinfo=None)`
(wall − offset); a naive `datetime` is returned unchanged; a string is parsed
(`dateutil`), Paris-localized when naive, converted to UTC; parse failure →
`None`. -/
def parse_date : DateInput → Option Int
  | .noneV => none
  | .dt d =>
    match d.off with
    | some o => some (d.wall - o)
    | none => some d.wall
  | .str s =>
    if s = "" then none
    else
      match parseIso s with
      | none => none
      | some (c, some o) => some (civilSecs c - o)
      | some (c, none) => some (civilSecs c - parisOffset c)

/-! ## The canonical record

One row of the consolidated batch, after every adapter: the fixed key set of
`transform.FULL_SCHEMA_KEYS`.  `date` holds the naive-UTC instant produced by
`parse_date` (or carried over from the DB), `none` when parsing failed. -/

structure Record where
  turbine_id : String
  date : Option Int
  temperature_k : Option ℚ
  wind_ms : Option ℚ
  vibration_mm_s : Option ℚ
  consumption_kwh : Option ℚ
  energie_kwh : Option ℚ
  arret_planifie : Option Bool
  arret_non_planifie : Option Bool
  source : String
deriving DecidableEq, Inhabited

/-! ## transform.py — the three source adapters -/

/-- A raw sensor row from `extract_db.fetch_last_24h` (columns already renamed
in the SQL).  `turbine_id`/`date` are the `raw_measurements` primary key, hence
non-null. -/
structure SensorRaw where
  turbine_id : String
  date : Int
  temperature_k : Option ℚ
  wind_ms : Option ℚ
  vibration_mm_s : Option ℚ
  consumption_kwh : Option ℚ
deriving DecidableEq

/-- `transform.transform_sensor_rows` (the `if not rows` guard only skips a log
line; the map below is the data path). -/
def transform_sensor_rows (rows : List SensorRaw) : List Record :=
  rows.map (fun r =>
    { turbine_id := r.turbine_id
      date := some r.date
      temperature_k := r.temperature_k
      wind_ms := r.wind_ms
      vibration_mm_s := r.vibration_mm_s
      consumption_kwh := r.consumption_kwh
      energie_kwh := none
      arret_planifie := none
      arret_non_planifie := none
      source := "db_sensor" })

/-- A raw production-CSV row per the upstream contract: every cell a string or
missing (`none` = absent key / `None`). -/
structure RawProd where
  date : Option String
  turbin_id : Option String
  energie_kWh : Option String
  arret_planifie : Option String
  arret_non_planifie : Option String
deriving DecidableEq

/-- Python `str(...)` on an optional string. -/
def pyStr : Option String → String
  | none => "None"
  | some s => s

/-- The record one `transform.transform_production_rows` loop iteration builds,
given the already-computed energy value: `str(r.get('turbin_id')).upper()`;
`parse_date` on the date string; `safe_bool_int` on both outage flags;
sensor/API fields `None`; source `csv_production`. -/
def prodRowWith (r : RawProd) (energie : Option ℚ) : Record :=
  { turbine_id := pyUpper (pyStr r.turbin_id)
    date := parse_date (match r.date with | none => DateInput.noneV | some s => DateInput.str s)
    temperature_k := none
    wind_ms := none
    vibration_mm_s := none
    consumption_kwh := none
    energie_kwh := energie
    arret_planifie := some (safe_bool_int r.arret_planifie)
    arret_non_planifie := some (safe_bool_int r.arret_non_planifie)
    source := "csv_production" }

/-- One iteration of the `transform.transform_production_rows` loop.  The
energy cell: `float(r.get('energie_kWh')) if r.get('energie_kWh') is not None
and str(...).strip() != '' else None` — the `float` call raises `ValueError`
on a non-numeric, non-blank string, uncaught in the source (`Except.error`). -/
def prodRow (r : RawProd) : Except String Record :=
  match r.energie_kWh with
  | none => Except.ok (prodRowWith r none)
  | some s =>
    if trimChars s.data = [] then Except.ok (prodRowWith r none)
    else
      match pyFloat s with
      | none => Except.error "ValueError"
      | some q => Except.ok (prodRowWith r (some q))

/-- `transform.transform_production_rows` (the `if not rows` guard returns `[]`,
which the empty `mapM` also yields). -/
def transform_production_rows (rows : List RawProd) : Except String (List Record) :=
  rows.mapM prodRow

/-- The `hourly` block of an Open-Meteo payload.  Each named array is present
(`some`) or missing from the JSON object (`none`); array elements are numbers
or JSON `null`.  Both spellings of the wind-speed key are carried so the
dictionary accesses of the source can be modelled exactly. -/
structure HourlyBlock where
  time : Option (List String)
  temperature_2m : Option (List (Option ℚ))
  windspeed_10m : Option (List (Option ℚ))
  wind_speed_10m : Option (List (Option ℚ))
deriving DecidableEq

/-- A weather payload: `hourly = none` models both a falsy payload (`{}`, as
substituted after an API failure) and a payload without an `hourly` key — the
source treats the two identically. -/
structure WeatherData where
  hourly : Option HourlyBlock
deriving DecidableEq

/-- Python `d[k]` on an optional field: `KeyError` when the key is absent. -/
def getKey {α : Type} (v : Option α) (k : String) : Except String α :=
  match v with
  | some x => Except.ok x
  | none => Except.error ("KeyError: " ++ k)

/-- Python `l[i]`: `IndexError` past the end. -/
def listGet {α : Type} (l : List α) (i : Nat) : Except String α :=
  match l.get? i with
  | some x => Except.ok x
  | none => Except.error "IndexError"

/-- `transform.transform_api_rows`.  Mirrors the source's dictionary accesses:
`hourly['time']` drives the loop, and each iteration reads
`hourly['temperature_2m'][i]` and `hourly['windspeed_10m'][i]` — note the
latter key has no underscore between `wind` and `speed`. -/
def transform_api_rows (data : WeatherData) (turbine_ids : List String)
    (source_name : String) : Except String (List Record) :=
  match data.hourly with
  | none => Except.ok []
  | some hourly =>
    if turbine_ids = [] then Except.ok []
    else do
      let times ← getKey hourly.time "time"
      (List.range times.length).foldlM (fun acc i => do
        let date_str ← listGet times i
        let temps ← getKey hourly.temperature_2m "temperature_2m"
        let tv ← listGet temps i
        let winds ← getKey hourly.windspeed_10m "windspeed_10m"
        let wv ← listGet winds i
        let temp_k := celsius_to_kelvin tv
        let wind_ms := kmh_to_ms wv
        Except.ok (acc ++ turbine_ids.map (fun tid =>
          ({ turbine_id := tid
             date := parse_date (DateInput.str date_str)
             temperature_k := temp_k
             wind_ms := wind_ms
             vibration_mm_s := none
             consumption_kwh := none
             energie_kwh := none
             arret_planifie := none
             arret_non_planifie := none
             source := source_name } : Record)))) []

/-- `transform.enforce_schema`: projects every row onto `FULL_SCHEMA_KEYS`,
defaulting missing keys to `None`.  In this embedding every `Record` already
carries exactly that key set, so the projection is the identity map. -/
def enforce_schema (records : List Record) : List Record :=
  records.map (fun r => r)

/-! ## transform.py — quality_check -/

/-- One range filter of the `quality_check` loop: a present value outside
`[lo, hi]` is nulled and counts one anomaly; anything else passes through. -/
def rangeFilter (v : Option ℚ) (lo hi : ℚ) : Option ℚ × Nat :=
  match v with
  | some x => if x < lo ∨ x > hi then (none, 1) else (some x, 0)
  | none => (none, 0)

/-- The energy/consumption filter: only negative present values are nulled. -/
def nonnegFilter (v : Option ℚ) : Option ℚ × Nat :=
  match v with
  | some x => if x < 0 then (none, 1) else (some x, 0)
  | none => (none, 0)

/-- The per-record effect of one `quality_check` loop iteration (the five
checks are independent, each mutating its own field and bumping the counter). -/
def qcRecord (r : Record) : Record × Nat :=
  ({ r with
     wind_ms := (rangeFilter r.wind_ms 0 42).1
     temperature_k := (rangeFilter r.temperature_k 200 330).1
     vibration_mm_s := (rangeFilter r.vibration_mm_s 0 25).1
     energie_kwh := (nonnegFilter r.energie_kwh).1
     consumption_kwh := (nonnegFilter r.consumption_kwh).1 },
   (rangeFilter r.wind_ms 0 42).2 + (rangeFilter r.temperature_k 200 330).2 +
   (rangeFilter r.vibration_mm_s 0 25).2 + (nonnegFilter r.energie_kwh).2 +
   (nonnegFilter r.consumption_kwh).2)

/-- `transform.quality_check`: mutates records in place and accumulates the
anomaly count; embedded as a fold returning the updated batch and the total. -/
def quality_check : List Record → List Record × Nat
  | [] => ([], 0)
  | r :: rest =>
    let p := qcRecord r
    let q := quality_check rest
    (p.1 :: q.1, p.2 + q.2)

/-! ## load.py — deduplication and merge-upsert -/

/-- The upsert key: `(row.get('turbine_id'), row.get('date'))`. -/
def rkey (r : Record) : String × Option Int := (r.turbine_id, r.date)

abbrev RKey := String × Option Int

/-- Python-dict assignment `d[k] = v` on an insertion-ordered association
list: replace in place if the key exists, else append. -/
def upsertAssoc (m : List (RKey × Record)) (k : RKey) (r : Record) :
    List (RKey × Record) :=
  match m with
  | [] => [(k, r)]
  | (k', r') :: rest =>
    if k' = k then (k', r) :: rest else (k', r') :: upsertAssoc rest k r

/-- The dict built by the `load.deduplicate_and_merge_records` loop. -/
def buildAssoc (rows : List Record) : List (RKey × Record) :=
  rows.foldl (fun m row => upsertAssoc m (rkey row) row) []

/-- `load.deduplicate_and_merge_records`: last-one-wins per key, output in
key-first-seen order (`list(dict.values())`). -/
def deduplicate_and_merge_records (rows : List Record) : List Record :=
  (buildAssoc rows).map Prod.snd

/-- SQL `COALESCE(a, b)`. -/
def coalesce {α : Type} (a b : Option α) : Option α :=
  match a with
  | some x => some x
  | none => b

/-- The `ON CONFLICT (turbine_id, date) DO UPDATE SET` clause of
`load.insert_measurements`: every measured field becomes
`COALESCE(EXCLUDED.field, stored.field)`, `source` becomes `EXCLUDED.source`
unconditionally, and the key columns are untouched. -/
def mergeRow (incoming stored : Record) : Record :=
  { turbine_id := stored.turbine_id
    date := stored.date
    energie_kwh := coalesce incoming.energie_kwh stored.energie_kwh
    temperature_k := coalesce incoming.temperature_k stored.temperature_k
    wind_ms := coalesce incoming.wind_ms stored.wind_ms
    vibration_mm_s := coalesce incoming.vibration_mm_s stored.vibration_mm_s
    consumption_kwh := coalesce incoming.consumption_kwh stored.consumption_kwh
    arret_planifie := coalesce incoming.arret_planifie stored.arret_planifie
    arret_non_planifie := coalesce incoming.arret_non_planifie stored.arret_non_planifie
    source := incoming.source }

/-- First stored row with the given key (the target table is unique on the
key, so this is the row the conflict clause fires against). -/
def findRow (store : List Record) (k : RKey) : Option Record :=
  store.find? (fun s => rkey s = k)

/-- The effect of one VALUES row of the upsert statement on the store:
update on conflict, plain insert otherwise. -/
def upsertOne (store : List Record) (r : Record) : List Record :=
  if store.any (fun s => rkey s = rkey r) then
    store.map (fun s => if rkey s = rkey r then mergeRow r s else s)
  else
    store ++ [r]

/-- The store transformation of `load.insert_measurements`: deduplicate, then
apply the upsert row by row.  (The source chunks the rows into batches of 500
before submitting; chunking does not change the row-at-a-time conflict
semantics, which is what this models.)  The function's return value in the
source is the number of rows submitted, `insertedCount` below. -/
def insert_measurements (store : List Record) (rows : List Record) : List Record :=
  (deduplicate_and_merge_records rows).foldl upsertOne store

/-- The count `load.insert_measurements` returns. -/
def insertedCount (rows : List Record) : Nat :=
  (deduplicate_and_merge_records rows).length

/-! ## main_pipeline.py — the run orchestration

`run` is embedded as a function of the outcomes of its four I/O interactions
(the three extractions and the storage write), which are external effects.
Info-level progress logging is elided; the failure-path log events — the ones
whose level the error-handling contract speaks about — are modelled, with
short tags standing for the source's message strings. -/

inductive LogLevel where
  | info : LogLevel
  | warning : LogLevel
  | error : LogLevel
deriving DecidableEq

instance {α β : Type} [DecidableEq α] [DecidableEq β] : DecidableEq (Except α β) := fun a b =>
  match a, b with
  | Except.ok x, Except.ok y =>
    if h : x = y then Decidable.isTrue (congrArg Except.ok h)
    else Decidable.isFalse (fun hc => h (Except.ok.inj hc))
  | Except.error x, Except.error y =>
    if h : x = y then Decidable.isTrue (congrArg Except.error h)
    else Decidable.isFalse (fun hc => h (Except.error.inj hc))
  | Except.ok _, Except.error _ => Decidable.isFalse (fun hc => Except.noConfusion hc)
  | Except.error _, Except.ok _ => Decidable.isFalse (fun hc => Except.noConfusion hc)

/-- Outcomes of the external interactions of one run. -/
structure RunEnv where
  dbFetch : Except String (List SensorRaw)
  csvFetch : Except String (List RawProd)
  apiFetch : Except String WeatherData
  dbWrite : Except String Unit
deriving DecidableEq

/-- The observable summary of one run (`summary` in the source): final status,
emitted failure-path log events, per-source extracted counts
(`sources_extraites`; a key is absent when that extraction failed), and
`lignes_chargees`. -/
structure RunResult where
  status : String
  logs : List (LogLevel × String)
  dbCount : Option Nat
  csvCount : Option Nat
  chargees : Nat
deriving DecidableEq

/-- Python `set(...)` of the active turbine ids; iteration order of a Python
set is unspecified, modelled here as first-occurrence order (nothing proved
below depends on the order). -/
def listSet (l : List String) : List String :=
  l.foldl (fun acc x => if x ∈ acc then acc else acc ++ [x]) []

/-- Step 2.1 of `run`: the DB extraction `try`/`except` — on failure the
source contributes `[]`, the failure is logged via `logger.error`, and no
`sources_extraites` count is recorded. -/
def dbPartOf (x : Except String (List SensorRaw)) :
    List SensorRaw × List (LogLevel × String) × Option Nat :=
  match x with
  | Except.ok rs => (rs, [], some rs.length)
  | Except.error _ => ([], [(LogLevel.error, "Echec de l extraction DB")], none)

/-- Step 2.2 of `run`: the CSV extraction `try`/`except` — failure degrades to
`[]` with a `logger.warning`. -/
def csvPartOf (x : Except String (List RawProd)) :
    List RawProd × List (LogLevel × String) × Option Nat :=
  match x with
  | Except.ok rs => (rs, [], some rs.length)
  | Except.error _ => ([], [(LogLevel.warning, "Echec de l extraction CSV")], none)

/-- Step 2.3 of `run`: the API extraction `try`/`except` — failure degrades to
the empty payload `{}` with a `logger.warning`. -/
def apiPartOf (x : Except String WeatherData) :
    WeatherData × List (LogLevel × String) :=
  match x with
  | Except.ok d => (d, [])
  | Except.error _ => (⟨none⟩, [(LogLevel.warning, "Echec de l extraction API")])

/-- Steps 3–4 of `run`: transform, consolidate, quality-check, and load, given
the three extraction outcomes and the storage-write outcome. -/
def runCore (dbPart : List SensorRaw × List (LogLevel × String) × Option Nat)
    (csvPart : List RawProd × List (LogLevel × String) × Option Nat)
    (apiPart : WeatherData × List (LogLevel × String))
    (dbWrite : Except String Unit) (store : List Record) :
    Except String (RunResult × List Record) :=
  let transformed_sensor := transform_sensor_rows dbPart.1
  match transform_production_rows csvPart.1 with
  | Except.error e => Except.error e
  | Except.ok transformed_production =>
    let active_turbines :=
      listSet ((transformed_sensor ++ transformed_production).map Record.turbine_id)
    match transform_api_rows apiPart.1 active_turbines "api_weather" with
    | Except.error e => Except.error e
    | Except.ok transformed_api =>
      let consolidated :=
        enforce_schema (transformed_sensor ++ transformed_production ++ transformed_api)
      let cleanedPair := quality_check consolidated
      match dbWrite with
      | Except.ok _ =>
        Except.ok
          ({ status := "COMPLETED_SUCCESS"
             logs := dbPart.2.1 ++ csvPart.2.1 ++ apiPart.2
             dbCount := dbPart.2.2
             csvCount := csvPart.2.2
             chargees := insertedCount cleanedPair.1 },
           insert_measurements store cleanedPair.1)
      | Except.error _ =>
        Except.ok
          ({ status := "COMPLETED_FAILURE"
             logs := dbPart.2.1 ++ csvPart.2.1 ++ apiPart.2 ++
                     [(LogLevel.error, "Erreur FATALE lors du chargement")]
             dbCount := dbPart.2.2
             csvCount := csvPart.2.2
             chargees := 0 },
           store)

/-- `main_pipeline.run`, from extraction through load, against a store.
Extraction failures are caught per source (DB: `logger.error`, CSV and API:
`logger.warning`) and degrade to an empty contribution; an exception escaping
a transform is uncaught in the source and aborts the run (`Except.error`
here); a storage failure during `insert_measurements` is caught, logged, and
ends the run with status `COMPLETED_FAILURE` and the store unchanged. -/
def run (env : RunEnv) (store : List Record) :
    Except String (RunResult × List Record) :=
  runCore (dbPartOf env.dbFetch) (csvPartOf env.csvFetch) (apiPartOf env.apiFetch)
    env.dbWrite store

/-- Logs of a run outcome (empty when the run crashed). -/
def runLogs (x : Except String (RunResult × List Record)) : List (LogLevel × String) :=
  match x with
  | Except.ok p => p.1.logs
  | Except.error _ => []

/-- Final status of a run outcome. -/
def runStatus (x : Except String (RunResult × List Record)) : Option String :=
  match x with
  | Except.ok p => some p.1.status
  | Except.error _ => none

/-- Final store of a run outcome. -/
def runStore (x : Except String (RunResult × List Record)) : Option (List Record) :=
  match x with
  | Except.ok p => some p.2
  | Except.error _ => none

/-- `lignes_chargees` of a run outcome. -/
def runChargees (x : Except String (RunResult × List Record)) : Option Nat :=
  match x with
  | Except.ok p => some p.1.chargees
  | Except.error _ => none

/-! ## Specification-side predicates and helpers

These are written from the spec's wording (not the source) and are used to
state the claims; the theorems below relate them to the embedded source. -/

/-- The spec's out-of-range test: a *present* value outside `[lo, hi]`. -/
def outOfRange (v : Option ℚ) (lo hi : ℚ) : Bool :=
  match v with
  | some x => decide (x < lo) || decide (x > hi)
  | none => false

/-- A present negative value. -/
def negPresent (v : Option ℚ) : Bool :=
  match v with
  | some x => decide (x < 0)
  | none => false

/-- How many of a record's five checked fields the spec calls anomalous. -/
def badCount (r : Record) : Nat :=
  (if outOfRange r.wind_ms 0 42 then 1 else 0) +
  (if outOfRange r.temperature_k 200 330 then 1 else 0) +
  (if outOfRange r.vibration_mm_s 0 25 then 1 else 0) +
  (if negPresent r.energie_kwh then 1 else 0) +
  (if negPresent r.consumption_kwh then 1 else 0)

/-- Association-list lookup by key (proof helper for the dict model). -/
def lookupA : List (RKey × Record) → RKey → Option Record
  | [], _ => none
  | p :: rest, k => if p.1 = k then some p.2 else lookupA rest k

/-- Invariant of the dict built by the dedup loop: every entry is keyed by its
record's own key. -/
def goodAssoc (m : List (RKey × Record)) : Prop :=
  ∀ p ∈ m, p.1 = rkey p.2

/-! ## Concrete instances used by witnesses and counterexamples -/

/-- 2025-10-01T12:00:00 naive, as seconds. -/
def cxWall : Int := civilSecs ⟨2025, 10, 1, 12, 0, 0⟩

/-- Stored row for the §8 coalesce example: `wind_speed_ms = 5.0`. -/
def c1stored : Record :=
  ⟨"T001", some cxWall, none, some 5, none, none, none, none, none, "db_sensor"⟩

/-- Incoming row for the same key with `wind_speed_ms` absent. -/
def c1incoming : Record :=
  ⟨"T001", some cxWall, some 280.1, none, none, none, none, none, none, "api_weather"⟩

/-- C2: a production row whose outage flags are blank strings. -/
def c2blankRow : RawProd :=
  ⟨some "2025-10-01", some "t001", none, some "", some ""⟩

/-- What `transform_production_rows` makes of `c2blankRow`. -/
def c2incoming : Record :=
  ⟨"T001", some (civilSecs ⟨2025, 9, 30, 22, 0, 0⟩), none, none, none, none, none,
   some false, some false, "csv_production"⟩

/-- C2: a stored row for the same key whose planned-outage flag is `true`. -/
def c2stored : Record :=
  ⟨"T001", some (civilSecs ⟨2025, 9, 30, 22, 0, 0⟩), none, none, none, none, some 850,
   some true, some true, "csv_production"⟩

/-- C3: the sensor-telemetry record, `wind_speed_ms = 12.3`, all else absent. -/
def c3sensor : Record :=
  ⟨"T001", some cxWall, none, some 12.3, none, none, none, none, none, "db_sensor"⟩

/-- C3: the weather record for the same key, `temperature_k = 280.1`. -/
def c3weather : Record :=
  ⟨"T001", some cxWall, some 280.1, none, none, none, none, none, none, "api_weather"⟩

/-- C4: an hourly block shaped exactly as the upstream contract (and as
`extract_api.py`'s own request): parallel `time`, `temperature_2m`,
`wind_speed_10m`; no legacy `windspeed_10m` key. -/
def c4hourly : HourlyBlock :=
  ⟨some ["2025-12-10T12:00"], some [some 10], none, some [some 18]⟩

/-- C8: the production row of the spec's end-to-end scenario. -/
def c8row : RawProd :=
  ⟨some "2025-10-01", some "t001", some "850", some "1", some ""⟩

/-- C9: a run whose DB extraction fails and everything else is healthy. -/
def c9dbFailEnv : RunEnv :=
  ⟨Except.error "connection refused", Except.ok [], Except.ok ⟨none⟩, Except.ok ()⟩

/-- C9: a run whose storage write fails. -/
def c9writeFailEnv : RunEnv :=
  ⟨Except.ok [], Except.ok [], Except.ok ⟨none⟩, Except.error "constraint violation"⟩

/-- The summary `run` produces for `c9dbFailEnv`. -/
def c9dbFailRes : RunResult :=
  ⟨"COMPLETED_SUCCESS", [(LogLevel.error, "Echec de l extraction DB")], none, some 0, 0⟩

/-- The summary `run` produces for `c9writeFailEnv`. -/
def c9writeFailRes : RunResult :=
  ⟨"COMPLETED_FAILURE", [(LogLevel.error, "Erreur FATALE lors du chargement")],
   some 0, some 0, 0⟩

/-- A quality-gate test record with every checked field out of range. -/
def cqBad : Record :=
  ⟨"T001", some cxWall, some 100, some 50, some (-1), some (-5), some (-2),
   some true, none, "db_sensor"⟩

/-! # Theorems

First the library of lemmas about the dict model behind
`deduplicate_and_merge_records`, then the per-claim theorems. -/

lemma keys_upsertAssoc (m : List (RKey × Record)) (k : RKey) (r : Record) :
    (upsertAssoc m k r).map Prod.fst =
      if k ∈ m.map Prod.fst then m.map Prod.fst else m.map Prod.fst ++ [k] := by
  induction m with
  | nil => simp [upsertAssoc]
  | cons p rest ih =>
    obtain ⟨k', r'⟩ := p
    by_cases h : k' = k
    · subst h
      simp [upsertAssoc]
    · simp only [upsertAssoc, if_neg h, List.map_cons, ih]
      by_cases hmem : k ∈ rest.map Prod.fst
      · simp [hmem, Ne.symm h]
      · simp [hmem, Ne.symm h]

lemma nodupKeys_upsertAssoc (m : List (RKey × Record)) (k : RKey) (r : Record)
    (h : (m.map Prod.fst).Nodup) :
    ((upsertAssoc m k r).map Prod.fst).Nodup := by
  rw [keys_upsertAssoc]
  by_cases hmem : k ∈ m.map Prod.fst
  · simpa [hmem]
  · simp [hmem, List.nodup_append, h]

lemma lookupA_upsertAssoc (m : List (RKey × Record)) (k k' : RKey) (r : Record) :
    lookupA (upsertAssoc m k r) k' = if k' = k then some r else lookupA m k' := by
  induction m with
  | nil =>
    by_cases h : k' = k
    · simp [upsertAssoc, lookupA, h]
    · simp [upsertAssoc, lookupA, h, Ne.symm h]
  | cons p rest ih =>
    obtain ⟨k0, r0⟩ := p
    by_cases h0 : k0 = k
    · subst h0
      by_cases h' : k' = k0
      · subst h'
        simp [upsertAssoc, lookupA]
      · simp [upsertAssoc, lookupA, h', Ne.symm h']
    · by_cases h' : k0 = k'
      · subst h'
        simp [upsertAssoc, lookupA, h0, Ne.symm h0]
      · simp [upsertAssoc, lookupA, h0, h', ih]

lemma goodAssoc_upsertAssoc (m : List (RKey × Record)) (r : Record)
    (h : goodAssoc m) : goodAssoc (upsertAssoc m (rkey r) r) := by
  induction m with
  | nil =>
    intro p hp
    simp [upsertAssoc] at hp
    simp [hp]
  | cons q rest ih =>
    obtain ⟨k0, r0⟩ := q
    have hgrest : goodAssoc rest := fun p hp => h p (List.mem_cons_of_mem _ hp)
    by_cases h0 : k0 = rkey r
    · intro p hp
      simp only [upsertAssoc, if_pos h0] at hp
      rcases List.mem_cons.mp hp with hEq | hmem
      · subst hEq; exact h0
      · exact hgrest p hmem
    · intro p hp
      simp only [upsertAssoc, if_neg h0] at hp
      rcases List.mem_cons.mp hp with hEq | hmem
      · subst hEq; exact h ⟨k0, r0⟩ (List.mem_cons_self _ _)
      · exact ih hgrest p hmem

lemma goodAssoc_buildAssoc (rows : List Record) : goodAssoc (buildAssoc rows) := by
  suffices h : ∀ m, goodAssoc m →
      goodAssoc (rows.foldl (fun m row => upsertAssoc m (rkey row) row) m) by
    exact h [] (fun p hp => absurd hp (List.not_mem_nil p))
  induction rows with
  | nil => intro m hm; exact hm
  | cons r rest ih =>
    intro m hm
    exact ih _ (goodAssoc_upsertAssoc m r hm)

lemma nodupKeys_buildAssoc (rows : List Record) :
    ((buildAssoc rows).map Prod.fst).Nodup := by
  suffices h : ∀ m, (m.map Prod.fst).Nodup →
      ((rows.foldl (fun m row => upsertAssoc m (rkey row) row) m).map Prod.fst).Nodup by
    exact h [] (by simp)
  induction rows with
  | nil => intro m hm; exact hm
  | cons r rest ih =>
    intro m hm
    exact ih _ (nodupKeys_upsertAssoc m (rkey r) r hm)

lemma buildAssoc_concat (rows : List Record) (r : Record) :
    buildAssoc (rows ++ [r]) = upsertAssoc (buildAssoc rows) (rkey r) r := by
  simp [buildAssoc, List.foldl_append]

lemma lookupA_buildAssoc (rows : List Record) (k : RKey) :
    lookupA (buildAssoc rows) k = (rows.filter (fun r => rkey r = k)).getLast? := by
  induction rows using List.reverseRecOn with
  | nil => simp [buildAssoc, lookupA]
  | append_singleton rs r ih =>
    rw [buildAssoc_concat, lookupA_upsertAssoc]
    by_cases h : k = rkey r
    · simp [if_pos h, List.filter_append, h, List.getLast?_concat]
    · have hr : ¬ (rkey r = k) := fun hh => h (Eq.symm hh)
      simp [if_neg h, List.filter_append, hr, ih]

lemma mem_keys_buildAssoc (rows : List Record) (k : RKey) :
    k ∈ (buildAssoc rows).map Prod.fst ↔ k ∈ rows.map rkey := by
  induction rows using List.reverseRecOn generalizing k with
  | nil => simp [buildAssoc]
  | append_singleton rs r ih =>
    rw [buildAssoc_concat, keys_upsertAssoc]
    by_cases h : rkey r ∈ (buildAssoc rs).map Prod.fst
    · rw [if_pos h]
      have hr : rkey r ∈ rs.map rkey := (ih (rkey r)).mp h
      rw [ih k]
      simp only [List.map_append, List.map_cons, List.map_nil, List.mem_append,
        List.mem_singleton]
      constructor
      · exact fun hk => Or.inl hk
      · rintro (hk | hk)
        · exact hk
        · rw [hk]; exact hr
    · rw [if_neg h]
      simp only [List.map_append, List.map_cons, List.map_nil, List.mem_append,
        List.mem_singleton, ih k]

lemma findRow_map_snd (m : List (RKey × Record)) (k : RKey) (hg : goodAssoc m) :
    findRow (m.map Prod.snd) k = lookupA m k := by
  induction m with
  | nil => simp [findRow, lookupA]
  | cons p rest ih =>
    have hp : p.1 = rkey p.2 := hg p (List.mem_cons_self _ _)
    have hgrest : goodAssoc rest := fun q hq => hg q (List.mem_cons_of_mem _ hq)
    by_cases h : rkey p.2 = k
    · simp [findRow, lookupA, List.find?_cons, h, hp]
    · have := ih hgrest
      simp only [findRow] at this
      simp [findRow, lookupA, List.find?_cons, h, hp, this]

lemma upsertAssoc_fresh (m : List (RKey × Record)) (k : RKey) (r : Record)
    (h : k ∉ m.map Prod.fst) : upsertAssoc m k r = m ++ [(k, r)] := by
  induction m with
  | nil => simp [upsertAssoc]
  | cons p rest ih =>
    have h1 : p.1 ≠ k := by
      intro hh
      exact h (by simp [hh])
    have h2 : k ∉ rest.map Prod.fst := by
      intro hh
      exact h (by simp [hh])
    simp [upsertAssoc, h1, ih h2]

lemma foldl_upsert_fresh :
    ∀ (rows : List Record) (m : List (RKey × Record)),
      (rows.map rkey).Nodup →
      (∀ k, k ∈ m.map Prod.fst → k ∉ rows.map rkey) →
      rows.foldl (fun m row => upsertAssoc m (rkey row) row) m
        = m ++ rows.map (fun r => (rkey r, r))
  | [], m, _, _ => by simp
  | r :: rest, m, hnd, hdisj => by
    have hfresh : rkey r ∉ m.map Prod.fst := by
      intro hmem
      exact hdisj _ hmem (by simp)
    have hnd2 : (rkey r :: rest.map rkey).Nodup := by simpa using hnd
    have hnd' : (rest.map rkey).Nodup := hnd2.of_cons
    have hnotin : rkey r ∉ rest.map rkey := (List.nodup_cons.mp hnd2).1
    have hdisj' : ∀ k, k ∈ (m ++ [(rkey r, r)]).map Prod.fst → k ∉ rest.map rkey := by
      intro k hk
      rw [List.map_append] at hk
      rcases List.mem_append.mp hk with hk1 | hk2
      · intro hmem
        exact hdisj k hk1 (by simp [hmem])
      · have hkr : k = rkey r := by simpa using hk2
        rw [hkr]
        exact hnotin
    have step : (r :: rest).foldl (fun m row => upsertAssoc m (rkey row) row) m
        = rest.foldl (fun m row => upsertAssoc m (rkey row) row)
            (upsertAssoc m (rkey r) r) := rfl
    rw [step, upsertAssoc_fresh m (rkey r) r hfresh,
      foldl_upsert_fresh rest (m ++ [(rkey r, r)]) hnd' hdisj']
    simp

lemma map_rkey_dedup (rows : List Record) :
    (deduplicate_and_merge_records rows).map rkey = (buildAssoc rows).map Prod.fst := by
  have hg := goodAssoc_buildAssoc rows
  simp only [deduplicate_and_merge_records, List.map_map]
  exact List.map_congr_left (fun p hp => (hg p hp).symm)

lemma nodup_rkey_dedup (rows : List Record) :
    ((deduplicate_and_merge_records rows).map rkey).Nodup := by
  rw [map_rkey_dedup]
  exact nodupKeys_buildAssoc rows

lemma dedup_of_nodup (l : List Record) (h : (l.map rkey).Nodup) :
    deduplicate_and_merge_records l = l := by
  have hb : buildAssoc l = l.map (fun r => (rkey r, r)) := by
    have := foldl_upsert_fresh l [] h (by simp)
    simpa [buildAssoc] using this
  rw [deduplicate_and_merge_records, hb, List.map_map]
  exact (List.map_congr_left fun a _ => rfl).trans (List.map_id l)

lemma dedup_idem (rows : List Record) :
    deduplicate_and_merge_records (deduplicate_and_merge_records rows)
      = deduplicate_and_merge_records rows :=
  dedup_of_nodup _ (nodup_rkey_dedup rows)

lemma findRow_dedup (rows : List Record) (k : RKey) :
    findRow (deduplicate_and_merge_records rows) k
      = (rows.filter (fun r => rkey r = k)).getLast? := by
  rw [deduplicate_and_merge_records,
    findRow_map_snd _ _ (goodAssoc_buildAssoc rows), lookupA_buildAssoc]

/-- **C7.** `deduplicate_and_merge_records` keeps exactly one record per
(asset_id, timestamp) key — the last record of the batch for that key, taken
whole — deduplicating twice is the same as deduplicating once, and the number
of distinct keys never increases (it is preserved exactly). -/
theorem c7_dedup_last_writer_wins_idempotent (rows : List Record) :
    ((deduplicate_and_merge_records rows).map rkey).Nodup ∧
    (∀ k : RKey, findRow (deduplicate_and_merge_records rows) k
        = (rows.filter (fun r => rkey r = k)).getLast?) ∧
    deduplicate_and_merge_records (deduplicate_and_merge_records rows)
        = deduplicate_and_merge_records rows ∧
    ((deduplicate_and_merge_records rows).map rkey).toFinset.card
        ≤ (rows.map rkey).toFinset.card := by
  refine ⟨nodup_rkey_dedup rows, fun k => findRow_dedup rows k, dedup_idem rows, ?_⟩
  have hset : ((deduplicate_and_merge_records rows).map rkey).toFinset
      = (rows.map rkey).toFinset := by
    ext k
    simp only [List.mem_toFinset, map_rkey_dedup]
    exact mem_keys_buildAssoc rows k
  rw [hset]

lemma rkey_mergeRow (r s : Record) : rkey (mergeRow r s) = rkey s := rfl

lemma findRow_map_update (store : List Record) (r : Record) :
    findRow (store.map (fun s => if rkey s = rkey r then mergeRow r s else s)) (rkey r)
      = (findRow store (rkey r)).map (fun s => mergeRow r s) := by
  induction store with
  | nil => simp [findRow]
  | cons s0 rest ih =>
    by_cases h : rkey s0 = rkey r
    · simp [findRow, List.find?_cons, h, rkey_mergeRow]
    · simp only [findRow] at ih
      simp [findRow, List.find?_cons, h, ih]

lemma findRow_upsertOne_self (store : List Record) (r : Record) :
    findRow (upsertOne store r) (rkey r)
      = match findRow store (rkey r) with
        | some s => some (mergeRow r s)
        | none => some r := by
  by_cases hany : store.any (fun s => rkey s = rkey r)
  · rw [upsertOne, if_pos hany, findRow_map_update]
    have : ∃ s ∈ store, rkey s = rkey r := by simpa using hany
    obtain ⟨s, hs, hks⟩ := this
    have hsome : (findRow store (rkey r)).isSome := by
      rw [findRow, List.find?_isSome]
      exact ⟨s, hs, by simp [hks]⟩
    obtain ⟨s0, hs0⟩ := Option.isSome_iff_exists.mp hsome
    rw [hs0]
    rfl
  · rw [upsertOne, if_neg hany]
    have hnone : findRow store (rkey r) = none := by
      rw [findRow, List.find?_eq_none]
      intro x hx
      simp only [decide_eq_true_eq]
      intro hk
      exact hany (List.any_eq_true.mpr ⟨x, hx, by simp [hk]⟩)
    rw [hnone, findRow, List.find?_append]
    rw [findRow] at hnone
    simp [hnone, List.find?_cons]

lemma findRow_map_update_other (store : List Record) (r : Record) (k : RKey)
    (h : k ≠ rkey r) :
    findRow (store.map (fun s => if rkey s = rkey r then mergeRow r s else s)) k
      = findRow store k := by
  induction store with
  | nil => rfl
  | cons s0 rest ih =>
    rw [List.map_cons]
    by_cases h0 : rkey s0 = rkey r
    · have hk0 : ¬ (rkey s0 = k) := by
        rw [h0]
        exact fun hh => h hh.symm
      have hkm : ¬ (rkey (mergeRow r s0) = k) := by
        rw [rkey_mergeRow]
        exact hk0
      rw [if_pos h0, findRow, List.find?_cons_of_neg _ (by simpa using hkm)]
      rw [findRow, List.find?_cons_of_neg _ (by simpa using hk0)]
      exact ih
    · rw [if_neg h0]
      by_cases hk0 : rkey s0 = k
      · rw [findRow, List.find?_cons_of_pos _ (by simpa using hk0),
          findRow, List.find?_cons_of_pos _ (by simpa using hk0)]
      · rw [findRow, List.find?_cons_of_neg _ (by simpa using hk0),
          findRow, List.find?_cons_of_neg _ (by simpa using hk0)]
        exact ih

lemma findRow_upsertOne_other (store : List Record) (r : Record) (k : RKey)
    (h : k ≠ rkey r) : findRow (upsertOne store r) k = findRow store k := by
  by_cases hany : store.any (fun s => rkey s = rkey r)
  · rw [upsertOne, if_pos hany]
    exact findRow_map_update_other store r k h
  · rw [upsertOne, if_neg hany, findRow, List.find?_append]
    by_cases hfound : (store.find? (fun s => rkey s = k)).isSome
    · obtain ⟨s0, hs0⟩ := Option.isSome_iff_exists.mp hfound
      rw [findRow, hs0]
      simp [hs0]
    · have hnone : store.find? (fun s => decide (rkey s = k)) = none :=
        Option.not_isSome_iff_eq_none.mp hfound
      rw [findRow, hnone]
      simp [hnone, List.find?_cons, Ne.symm h]

lemma findRow_foldl_not_mem (l : List Record) (store : List Record) (k : RKey)
    (h : k ∉ l.map rkey) :
    findRow (l.foldl upsertOne store) k = findRow store k := by
  induction l generalizing store with
  | nil => rfl
  | cons x xs ih =>
    have hk : k ≠ rkey x := by
      intro hh
      exact h (by simp [hh])
    have hxs : k ∉ xs.map rkey := by
      intro hh
      exact h (by simp [hh])
    calc findRow ((x :: xs).foldl upsertOne store) k
        = findRow (xs.foldl upsertOne (upsertOne store x)) k := rfl
      _ = findRow (upsertOne store x) k := ih (upsertOne store x) hxs
      _ = findRow store k := findRow_upsertOne_other store x k hk

lemma findRow_foldl_upsert (l : List Record) (store : List Record) (r : Record)
    (hnd : (l.map rkey).Nodup) (hr : r ∈ l) :
    findRow (l.foldl upsertOne store) (rkey r)
      = match findRow store (rkey r) with
        | some s => some (mergeRow r s)
        | none => some r := by
  induction l generalizing store with
  | nil => exact absurd hr (List.not_mem_nil r)
  | cons x xs ih =>
    have hnd' : (xs.map rkey).Nodup := (List.nodup_cons.mp (by simpa using hnd)).2
    have hxnot : rkey x ∉ xs.map rkey := (List.nodup_cons.mp (by simpa using hnd)).1
    rcases List.mem_cons.mp hr with hEq | hmem
    · subst hEq
      have hnot : rkey r ∉ xs.map rkey := hxnot
      calc findRow ((r :: xs).foldl upsertOne store) (rkey r)
          = findRow (xs.foldl upsertOne (upsertOne store r)) (rkey r) := rfl
        _ = findRow (upsertOne store r) (rkey r) :=
            findRow_foldl_not_mem xs (upsertOne store r) (rkey r) hnot
        _ = _ := findRow_upsertOne_self store r
    · have hne : rkey r ≠ rkey x := by
        intro hh
        exact hxnot (hh ▸ List.mem_map_of_mem rkey hmem)
      calc findRow ((x :: xs).foldl upsertOne store) (rkey r)
          = findRow (xs.foldl upsertOne (upsertOne store x)) (rkey r) := rfl
        _ = match findRow (upsertOne store x) (rkey r) with
            | some s => some (mergeRow r s)
            | none => some r := ih (upsertOne store x) hnd' hmem
        _ = _ := by rw [findRow_upsertOne_other store x (rkey r) hne]

/-- **C1.** For every record of the cleaned, deduplicated batch:
if a stored row with its key exists, the merge-upsert writer leaves at that key
the stored row with every measured field set to `coalesce(incoming, stored)`
and the `source` field unconditionally overwritten by the incoming record's
source; if no stored row has the key, the record is inserted as-is. -/
theorem c1_merge_upsert_coalesce (store rows : List Record) (r : Record)
    (hr : r ∈ deduplicate_and_merge_records rows) :
    (∀ s, findRow store (rkey r) = some s →
      findRow (insert_measurements store rows) (rkey r) = some (mergeRow r s) ∧
      (mergeRow r s).energie_kwh = coalesce r.energie_kwh s.energie_kwh ∧
      (mergeRow r s).temperature_k = coalesce r.temperature_k s.temperature_k ∧
      (mergeRow r s).wind_ms = coalesce r.wind_ms s.wind_ms ∧
      (mergeRow r s).vibration_mm_s = coalesce r.vibration_mm_s s.vibration_mm_s ∧
      (mergeRow r s).consumption_kwh = coalesce r.consumption_kwh s.consumption_kwh ∧
      (mergeRow r s).arret_planifie = coalesce r.arret_planifie s.arret_planifie ∧
      (mergeRow r s).arret_non_planifie = coalesce r.arret_non_planifie s.arret_non_planifie ∧
      (mergeRow r s).source = r.source ∧
      (mergeRow r s).turbine_id = s.turbine_id ∧
      (mergeRow r s).date = s.date) ∧
    (findRow store (rkey r) = none →
      findRow (insert_measurements store rows) (rkey r) = some r) := by
  have hmain := findRow_foldl_upsert (deduplicate_and_merge_records rows) store r
    (nodup_rkey_dedup rows) hr
  constructor
  · intro s hs
    rw [insert_measurements]
    rw [hs] at hmain
    exact ⟨hmain, rfl, rfl, rfl, rfl, rfl, rfl, rfl, rfl, rfl, rfl⟩
  · intro hs
    rw [insert_measurements]
    rw [hs] at hmain
    exact hmain

/-- Witness for C1 at the spec's §8 example: stored `wind_speed_ms = 5.0`,
incoming row for the same key with wind absent and `temperature_k = 280.1`;
the merged row keeps wind 5.0, gains the temperature, and takes the incoming
source. -/
theorem c1_merge_upsert_coalesce_witness :
    findRow (insert_measurements [c1stored] [c1incoming]) (rkey c1incoming)
        = some (mergeRow c1incoming c1stored) ∧
    (mergeRow c1incoming c1stored).wind_ms = some 5 ∧
    (mergeRow c1incoming c1stored).temperature_k = some 280.1 ∧
    (mergeRow c1incoming c1stored).source = "api_weather" := by
  have h := (c1_merge_upsert_coalesce [c1stored] [c1incoming] c1incoming
    (List.mem_cons_self _ _)).1 c1stored rfl
  exact ⟨h.1, rfl, rfl, rfl⟩

/-- **C3, counterexample.** Submitting the two records of the scenario in one
batch, against a store with no row for the key, keeps only the weather record:
deduplication is last-writer-wins on whole records, so the stored row ends
with `wind_ms` absent, not `12.3`. -/
theorem c3_single_batch_counterexample :
    insert_measurements [] [c3sensor, c3weather] = [c3weather] ∧
    rkey c3sensor = rkey c3weather ∧
    c3sensor.wind_ms = some 12.3 ∧
    c3weather.wind_ms = none ∧
    c3weather.temperature_k = some 280.1 ∧
    c3weather.source = "api_weather" := by
  refine ⟨rfl, rfl, rfl, rfl, rfl, rfl⟩

/-- **C3, amended.** Submitted as two successive batches — the sensor record
first, the weather record second — the store ends with a single row carrying
both `wind_ms = 12.3` and `temperature_k = 280.1`, with the weather source. -/
theorem c3_two_batches_merge :
    insert_measurements (insert_measurements [] [c3sensor]) [c3weather]
      = [{ turbine_id := "T001", date := some cxWall, temperature_k := some 280.1,
           wind_ms := some 12.3, vibration_mm_s := none, consumption_kwh := none,
           energie_kwh := none, arret_planifie := none, arret_non_planifie := none,
           source := "api_weather" }] := by
  rfl

/-- **C2, counterexample.** A production row whose planned-outage flag is a
blank string is transformed into a record with a *present* `some false` flag
(`safe_bool_int` coerces blank to `False`), and upserting it over a stored row
whose flag is `some true` overwrites the stored value: the end-to-end
"absent never overwrites present" invariant fails for the outage flags. -/
theorem c2_blank_flag_counterexample :
    transform_production_rows [c2blankRow] = Except.ok [c2incoming] ∧
    c2blankRow.arret_planifie = some "" ∧
    c2incoming.arret_planifie = some false ∧
    c2stored.arret_planifie = some true ∧
    rkey c2incoming = rkey c2stored ∧
    (findRow (insert_measurements [c2stored] [c2incoming]) (rkey c2stored)).map
        Record.arret_planifie = some (some false) := by
  refine ⟨by decide, rfl, rfl, rfl, rfl, by decide⟩

/-- **C2, amended.** At the merge step an absent incoming value never
overwrites a stored value, for every one of the seven coalesced fields; in the
production adapter a missing or blank energy cell yields absent (never 0); but
the two outage flags are the exception: `safe_bool_int` coerces every missing
or blank flag to a *present* `false`, which the merge step can then write over
a stored `true` (final conjunct). -/
theorem c2_amended_absent_preserved_except_flags :
    (∀ inc st : Record,
      (inc.energie_kwh = none → (mergeRow inc st).energie_kwh = st.energie_kwh) ∧
      (inc.temperature_k = none → (mergeRow inc st).temperature_k = st.temperature_k) ∧
      (inc.wind_ms = none → (mergeRow inc st).wind_ms = st.wind_ms) ∧
      (inc.vibration_mm_s = none → (mergeRow inc st).vibration_mm_s = st.vibration_mm_s) ∧
      (inc.consumption_kwh = none → (mergeRow inc st).consumption_kwh = st.consumption_kwh) ∧
      (inc.arret_planifie = none → (mergeRow inc st).arret_planifie = st.arret_planifie) ∧
      (inc.arret_non_planifie = none →
        (mergeRow inc st).arret_non_planifie = st.arret_non_planifie)) ∧
    (∀ (r : RawProd) (rec : Record), prodRow r = Except.ok rec →
      (r.energie_kWh = none → rec.energie_kwh = none) ∧
      (∀ s, r.energie_kWh = some s → trimChars s.data = [] → rec.energie_kwh = none) ∧
      rec.arret_planifie = some (safe_bool_int r.arret_planifie) ∧
      rec.arret_non_planifie = some (safe_bool_int r.arret_non_planifie)) ∧
    (∀ v : Option String, v = none ∨ v = some "" → safe_bool_int v = false) ∧
    (mergeRow c2incoming c2stored).arret_planifie = some false := by
  refine ⟨?_, ?_, ?_, rfl⟩
  · intro inc st
    refine ⟨?_, ?_, ?_, ?_, ?_, ?_, ?_⟩ <;>
      (intro h; simp [mergeRow, coalesce, h])
  · intro r rec h
    match hE : r.energie_kWh with
    | none =>
      rw [prodRow, hE] at h
      have hrec : rec = prodRowWith r none := (Except.ok.inj h).symm
      subst hrec
      exact ⟨fun _ => rfl, fun s hs => absurd hs (by simp), rfl, rfl⟩
    | some s =>
      simp only [prodRow, hE] at h
      by_cases htrim : trimChars s.data = []
      · rw [if_pos htrim] at h
        have hrec : rec = prodRowWith r none := (Except.ok.inj h).symm
        subst hrec
        exact ⟨fun hh => by simp at hh, fun _ _ _ => rfl, rfl, rfl⟩
      · rw [if_neg htrim] at h
        match hq : pyFloat s with
        | none => rw [hq] at h; exact absurd h (by simp)
        | some q =>
          rw [hq] at h
          have hrec : rec = prodRowWith r (some q) := (Except.ok.inj h).symm
          subst hrec
          refine ⟨fun hh => by simp at hh, ?_, rfl, rfl⟩
          intro s' hs' htrim'
          have hss : s = s' := Option.some.inj hs'
          rw [← hss] at htrim'
          exact absurd htrim' htrim
  · rintro v (hv | hv) <;> simp [safe_bool_int, hv]

/-- Witness for the amended C2: instantiates the merge-preservation clauses at
the concrete stored/incoming pair and the adapter clause at the blank row. -/
theorem c2_amended_witness :
    (mergeRow c2incoming c2stored).energie_kwh = c2stored.energie_kwh ∧
    c2incoming.energie_kwh = none ∧
    safe_bool_int (some "") = false := by
  have h1 := (c2_amended_absent_preserved_except_flags.1 c2incoming c2stored).1 rfl
  have h2 := (c2_amended_absent_preserved_except_flags.2.1 c2blankRow c2incoming
    (by decide)).1 rfl
  have h3 := c2_amended_absent_preserved_except_flags.2.2.1 (some "") (Or.inr rfl)
  exact ⟨h1, h2, h3⟩

/-- **C4.** On a payload shaped exactly as the documented upstream contract
(parallel arrays `time`, `temperature_2m`, `wind_speed_10m` — the key
`extract_api.py` itself requests), the weather adapter raises
`KeyError: 'windspeed_10m'` instead of fanning out records: it reads the
legacy spelling `windspeed_10m`, which the payload does not carry. -/
theorem c4_weather_contract_keyerror :
    transform_api_rows ⟨some c4hourly⟩ ["T001", "T002"] "api_weather"
        = Except.error "KeyError: windspeed_10m" ∧
    c4hourly.wind_speed_10m = some [some 18] ∧
    c4hourly.windspeed_10m = none ∧
    c4hourly.time = some ["2025-12-10T12:00"] ∧
    c4hourly.temperature_2m = some [some 10] := by
  exact ⟨rfl, rfl, rfl, rfl, rfl⟩

/-- **C5, counterexample.** A *naive datetime object* is returned unchanged by
`parse_date` — it is not localized to the ingestion system's civil zone —
while a naive *string* with the very same wall-clock reading is localized
(Europe/Paris, +02:00 on 2025-10-01) and shifted; the claim's uniform
treatment of the two naive cases fails on the object case. -/
theorem c5_naive_object_counterexample :
    parse_date (DateInput.dt ⟨cxWall, none⟩) = some cxWall ∧
    parse_date (DateInput.str "2025-10-01T12:00") = some (cxWall - 7200) ∧
    parisOffset ⟨2025, 10, 1, 12, 0, 0⟩ = 7200 ∧
    cxWall ≠ cxWall - 7200 := by
  refine ⟨rfl, by decide, by decide, by decide⟩

/-- **C5, amended.** `parse_date`: a value carrying an offset — datetime
object or string — is converted to UTC; a naive *string* is localized to the
ingestion system's local civil zone (Europe/Paris) and converted to UTC; a
naive *datetime object* is returned unchanged (treated as already UTC);
unparseable input yields absent, and the function is total (never raises). -/
theorem c5_amended_parse_date :
    (∀ w o : Int, parse_date (DateInput.dt ⟨w, some o⟩) = some (w - o)) ∧
    (∀ w : Int, parse_date (DateInput.dt ⟨w, none⟩) = some w) ∧
    (∀ (s : String) (c : Civil), s ≠ "" → parseIso s = some (c, none) →
      parse_date (DateInput.str s) = some (civilSecs c - parisOffset c)) ∧
    (∀ (s : String) (c : Civil) (o : Int), s ≠ "" → parseIso s = some (c, some o) →
      parse_date (DateInput.str s) = some (civilSecs c - o)) ∧
    (∀ s : String, parseIso s = none → parse_date (DateInput.str s) = none) ∧
    parse_date DateInput.noneV = none := by
  refine ⟨fun w o => rfl, fun w => rfl, ?_, ?_, ?_, rfl⟩
  · intro s c hs hp
    simp [parse_date, hs, hp]
  · intro s c o hs hp
    simp [parse_date, hs, hp]
  · intro s hp
    by_cases hs : s = ""
    · simp [parse_date, hs]
    · simp [parse_date, hs, hp]

/-- Witness for the amended C5 at concrete inputs: a date-only naive string is
Paris-localized, an offset-carrying string is shifted by its own offset, and
garbage parses to absent. -/
theorem c5_amended_parse_date_witness :
    parse_date (DateInput.str "2025-10-01")
        = some (civilSecs ⟨2025, 10, 1, 0, 0, 0⟩ - parisOffset ⟨2025, 10, 1, 0, 0, 0⟩) ∧
    parse_date (DateInput.str "2025-10-01T12:00+02:00")
        = some (civilSecs ⟨2025, 10, 1, 12, 0, 0⟩ - 7200) ∧
    parse_date (DateInput.str "not a date") = none := by
  have h := c5_amended_parse_date
  refine ⟨h.2.2.1 "2025-10-01" ⟨2025, 10, 1, 0, 0, 0⟩ (by decide) (by decide), ?_, ?_⟩
  · exact h.2.2.2.1 "2025-10-01T12:00+02:00" ⟨2025, 10, 1, 12, 0, 0⟩ 7200
      (by decide) (by decide)
  · exact h.2.2.2.2.1 "not a date" (by decide)

lemma quality_check_eq (rs : List Record) :
    quality_check rs
      = (rs.map (fun r => (qcRecord r).1), (rs.map (fun r => (qcRecord r).2)).sum) := by
  induction rs with
  | nil => rfl
  | cons r rest ih => simp [quality_check, ih]

lemma rangeFilter_fst (v : Option ℚ) (lo hi : ℚ) :
    (rangeFilter v lo hi).1 = if outOfRange v lo hi then none else v := by
  cases v with
  | none => simp [rangeFilter, outOfRange]
  | some x =>
    by_cases h : x < lo ∨ x > hi
    · simp [rangeFilter, outOfRange, h]
    · simp [rangeFilter, outOfRange, h]

lemma rangeFilter_snd (v : Option ℚ) (lo hi : ℚ) :
    (rangeFilter v lo hi).2 = if outOfRange v lo hi then 1 else 0 := by
  cases v with
  | none => simp [rangeFilter, outOfRange]
  | some x =>
    by_cases h : x < lo ∨ x > hi
    · simp [rangeFilter, outOfRange, h]
    · simp [rangeFilter, outOfRange, h]

lemma nonnegFilter_fst (v : Option ℚ) :
    (nonnegFilter v).1 = if negPresent v then none else v := by
  cases v with
  | none => simp [nonnegFilter, negPresent]
  | some x =>
    by_cases h : x < 0
    · simp [nonnegFilter, negPresent, h]
    · simp [nonnegFilter, negPresent, h]

lemma nonnegFilter_snd (v : Option ℚ) :
    (nonnegFilter v).2 = if negPresent v then 1 else 0 := by
  cases v with
  | none => simp [nonnegFilter, negPresent]
  | some x =>
    by_cases h : x < 0
    · simp [nonnegFilter, negPresent, h]
    · simp [nonnegFilter, negPresent, h]

lemma qcRecord_snd (r : Record) : (qcRecord r).2 = badCount r := by
  simp [qcRecord, badCount, rangeFilter_snd, nonnegFilter_snd]

lemma ite_none_or_monotone (v : Option ℚ) (b : Bool) (hb : v = none → b = false) :
    (if b then none else v) = v ∨ (v ≠ none ∧ (if b then none else v) = none) := by
  cases hb2 : b
  · left
    simp
  · right
    refine ⟨?_, by simp⟩
    intro hv
    rw [hb hv] at hb2
    exact Bool.noConfusion hb2

lemma outOfRange_none {lo hi : ℚ} (v : Option ℚ) (h : v = none) :
    outOfRange v lo hi = false := by
  rw [h]
  rfl

lemma negPresent_none (v : Option ℚ) (h : v = none) : negPresent v = false := by
  rw [h]
  rfl

/-- **C6.** The quality gate never drops a record, nulls exactly the present
out-of-range values (wind outside [0, 42], temperature outside [200, 330],
vibration outside [0, 25], negative energy or consumption), and its anomaly
counter is exactly the number of nulled fields, one per field. -/
theorem c6_quality_gate_ranges (rs : List Record) :
    (quality_check rs).1.length = rs.length ∧
    (quality_check rs).2 = (rs.map badCount).sum ∧
    (∀ i, i < rs.length →
      (((quality_check rs).1.getD i default).wind_ms
          = if outOfRange (rs.getD i default).wind_ms 0 42 then none
            else (rs.getD i default).wind_ms) ∧
      (((quality_check rs).1.getD i default).temperature_k
          = if outOfRange (rs.getD i default).temperature_k 200 330 then none
            else (rs.getD i default).temperature_k) ∧
      (((quality_check rs).1.getD i default).vibration_mm_s
          = if outOfRange (rs.getD i default).vibration_mm_s 0 25 then none
            else (rs.getD i default).vibration_mm_s) ∧
      (((quality_check rs).1.getD i default).energie_kwh
          = if negPresent (rs.getD i default).energie_kwh then none
            else (rs.getD i default).energie_kwh) ∧
      (((quality_check rs).1.getD i default).consumption_kwh
          = if negPresent (rs.getD i default).consumption_kwh then none
            else (rs.getD i default).consumption_kwh)) := by
  rw [quality_check_eq]
  refine ⟨by simp, ?_, ?_⟩
  · simp only []
    congr 1
    exact List.map_congr_left (fun r _ => qcRecord_snd r)
  · intro i hi
    have hlen : i < (rs.map (fun r => (qcRecord r).1)).length := by simpa using hi
    rw [List.getD_eq_get _ _ hlen, List.getD_eq_get _ _ hi, List.get_map]
    refine ⟨?_, ?_, ?_, ?_, ?_⟩ <;>
      simp [qcRecord, rangeFilter_fst, nonnegFilter_fst]

/-- Witness for C6 on a record with all five fields out of range (wind 50,
temperature 100, vibration −1, energy −2, consumption −5): nothing is dropped,
each field is nulled, and the counter totals 5. -/
theorem c6_quality_gate_ranges_witness :
    (quality_check [cqBad]).1.length = 1 ∧
    (quality_check [cqBad]).2 = 5 ∧
    ((quality_check [cqBad]).1.getD 0 default).wind_ms = none ∧
    ((quality_check [cqBad]).1.getD 0 default).temperature_k = none := by
  have h := c6_quality_gate_ranges [cqBad]
  have h3 := h.2.2 0 (by decide)
  refine ⟨h.1, ?_, ?_, ?_⟩
  · rw [h.2.1]
    decide
  · rw [h3.1]
    decide
  · rw [h3.2.1]
    decide

/-- **C10.** The quality gate returns a batch of the same length and, per
record, never touches the key fields, the outage flags, or the source; each of
the five checked fields either passes through unchanged or goes from a present
value to absent — never to a different present value. -/
theorem c10_quality_gate_frame (rs : List Record) :
    (quality_check rs).1.length = rs.length ∧
    (∀ i, i < rs.length →
      ((quality_check rs).1.getD i default).turbine_id
          = (rs.getD i default).turbine_id ∧
      ((quality_check rs).1.getD i default).date = (rs.getD i default).date ∧
      ((quality_check rs).1.getD i default).arret_planifie
          = (rs.getD i default).arret_planifie ∧
      ((quality_check rs).1.getD i default).arret_non_planifie
          = (rs.getD i default).arret_non_planifie ∧
      ((quality_check rs).1.getD i default).source = (rs.getD i default).source ∧
      (((quality_check rs).1.getD i default).wind_ms = (rs.getD i default).wind_ms ∨
        ((rs.getD i default).wind_ms ≠ none ∧
         ((quality_check rs).1.getD i default).wind_ms = none)) ∧
      (((quality_check rs).1.getD i default).temperature_k
          = (rs.getD i default).temperature_k ∨
        ((rs.getD i default).temperature_k ≠ none ∧
         ((quality_check rs).1.getD i default).temperature_k = none)) ∧
      (((quality_check rs).1.getD i default).vibration_mm_s
          = (rs.getD i default).vibration_mm_s ∨
        ((rs.getD i default).vibration_mm_s ≠ none ∧
         ((quality_check rs).1.getD i default).vibration_mm_s = none)) ∧
      (((quality_check rs).1.getD i default).energie_kwh
          = (rs.getD i default).energie_kwh ∨
        ((rs.getD i default).energie_kwh ≠ none ∧
         ((quality_check rs).1.getD i default).energie_kwh = none)) ∧
      (((quality_check rs).1.getD i default).consumption_kwh
          = (rs.getD i default).consumption_kwh ∨
        ((rs.getD i default).consumption_kwh ≠ none ∧
         ((quality_check rs).1.getD i default).consumption_kwh = none))) := by
  rw [quality_check_eq]
  refine ⟨by simp, ?_⟩
  intro i hi
  have hlen : i < (rs.map (fun r => (qcRecord r).1)).length := by simpa using hi
  rw [List.getD_eq_get _ _ hlen, List.getD_eq_get _ _ hi, List.get_map]
  set r := rs.get ⟨i, hi⟩
  refine ⟨rfl, rfl, rfl, rfl, rfl, ?_, ?_, ?_, ?_, ?_⟩
  · rw [show (qcRecord r).1.wind_ms = (rangeFilter r.wind_ms 0 42).1 from rfl,
      rangeFilter_fst]
    exact ite_none_or_monotone _ _ (outOfRange_none _)
  · rw [show (qcRecord r).1.temperature_k = (rangeFilter r.temperature_k 200 330).1 from rfl,
      rangeFilter_fst]
    exact ite_none_or_monotone _ _ (outOfRange_none _)
  · rw [show (qcRecord r).1.vibration_mm_s = (rangeFilter r.vibration_mm_s 0 25).1 from rfl,
      rangeFilter_fst]
    exact ite_none_or_monotone _ _ (outOfRange_none _)
  · rw [show (qcRecord r).1.energie_kwh = (nonnegFilter r.energie_kwh).1 from rfl,
      nonnegFilter_fst]
    exact ite_none_or_monotone _ _ (negPresent_none _)
  · rw [show (qcRecord r).1.consumption_kwh = (nonnegFilter r.consumption_kwh).1 from rfl,
      nonnegFilter_fst]
    exact ite_none_or_monotone _ _ (negPresent_none _)

/-- Witness for C10: on the all-out-of-range record the gate keeps the key,
flags, and source untouched while the batch keeps its length. -/
theorem c10_quality_gate_frame_witness :
    (quality_check [cqBad]).1.length = 1 ∧
    ((quality_check [cqBad]).1.getD 0 default).turbine_id = cqBad.turbine_id ∧
    ((quality_check [cqBad]).1.getD 0 default).arret_planifie = cqBad.arret_planifie ∧
    ((quality_check [cqBad]).1.getD 0 default).source = cqBad.source := by
  have h := c10_quality_gate_frame [cqBad]
  have h2 := h.2 0 (by decide)
  exact ⟨h.1, h2.1, h2.2.2.1, h2.2.2.2.2.1⟩

/-- **C8.** The production adapter maps the spec's example row to the expected
canonical record: upper-cased id, the Paris-midnight-to-UTC timestamp
(2025-09-30T22:00:00Z), energy 850.0, planned outage true, unplanned outage
false (blank flag), sensor/weather fields absent, source `csv_production`. -/
theorem c8_production_adapter_scenario :
    transform_production_rows [c8row]
      = Except.ok [{ turbine_id := "T001",
                     date := some (parisLocalizeToUtc ⟨2025, 10, 1, 0, 0, 0⟩),
                     temperature_k := none, wind_ms := none, vibration_mm_s := none,
                     consumption_kwh := none, energie_kwh := some 850,
                     arret_planifie := some true, arret_non_planifie := some false,
                     source := "csv_production" }] ∧
    parisLocalizeToUtc ⟨2025, 10, 1, 0, 0, 0⟩ = civilSecs ⟨2025, 9, 30, 22, 0, 0⟩ := by
  refine ⟨by decide, by decide⟩

lemma runCore_proj_congr
    (d d' : List SensorRaw × List (LogLevel × String) × Option Nat)
    (c c' : List RawProd × List (LogLevel × String) × Option Nat)
    (a a' : WeatherData × List (LogLevel × String))
    (wr : Except String Unit) (store : List Record)
    (h1 : d.1 = d'.1) (h2 : c.1 = c'.1) (h3 : a.1 = a'.1) :
    runStatus (runCore d c a wr store) = runStatus (runCore d' c' a' wr store) ∧
    runStore (runCore d c a wr store) = runStore (runCore d' c' a' wr store) ∧
    runChargees (runCore d c a wr store) = runChargees (runCore d' c' a' wr store) := by
  obtain ⟨ds, dl, dn⟩ := d
  obtain ⟨ds', dl', dn'⟩ := d'
  obtain ⟨cs, cl, cn⟩ := c
  obtain ⟨cs', cl', cn'⟩ := c'
  obtain ⟨aw, al⟩ := a
  obtain ⟨aw', al'⟩ := a'
  have h1' : ds = ds' := h1
  have h2' : cs = cs' := h2
  have h3' : aw = aw' := h3
  subst h1'
  subst h2'
  subst h3'
  cases htp : transform_production_rows cs with
  | error e =>
    simp only [runCore]
    rw [htp]
    simp [runStatus, runStore, runChargees]
  | ok tp =>
    cases hta : transform_api_rows aw
        (listSet ((transform_sensor_rows ds ++ tp).map Record.turbine_id))
        "api_weather" with
    | error e =>
      simp only [runCore]
      rw [htp]
      dsimp only
      rw [hta]
      simp [runStatus, runStore, runChargees]
    | ok ta =>
      cases wr with
      | ok u =>
        simp only [runCore]
        rw [htp]
        dsimp only
        rw [hta]
        simp [runStatus, runStore, runChargees]
      | error e =>
        simp only [runCore]
        rw [htp]
        dsimp only
        rw [hta]
        simp [runStatus, runStore, runChargees]

lemma runCore_logs_shape
    (d : List SensorRaw × List (LogLevel × String) × Option Nat)
    (c : List RawProd × List (LogLevel × String) × Option Nat)
    (a : WeatherData × List (LogLevel × String))
    (wr : Except String Unit) (store : List Record) (res : RunResult)
    (st : List Record) (h : runCore d c a wr store = Except.ok (res, st)) :
    res.logs = d.2.1 ++ c.2.1 ++ a.2 ∨
    res.logs = d.2.1 ++ c.2.1 ++ a.2 ++
        [(LogLevel.error, "Erreur FATALE lors du chargement")] := by
  cases htp : transform_production_rows c.1 with
  | error e =>
    simp only [runCore] at h
    rw [htp] at h
    simp at h
  | ok tp =>
    cases hta : transform_api_rows a.1
        (listSet ((transform_sensor_rows d.1 ++ tp).map Record.turbine_id))
        "api_weather" with
    | error e =>
      simp only [runCore] at h
      rw [htp] at h
      dsimp only at h
      rw [hta] at h
      simp at h
    | ok ta =>
      cases wr with
      | ok u =>
        simp only [runCore] at h
        rw [htp] at h
        dsimp only at h
        rw [hta] at h
        dsimp only at h
        simp only [Except.ok.injEq, Prod.mk.injEq] at h
        rw [← h.1]
        exact Or.inl rfl
      | error e =>
        simp only [runCore] at h
        rw [htp] at h
        dsimp only at h
        rw [hta] at h
        dsimp only at h
        simp only [Except.ok.injEq, Prod.mk.injEq] at h
        rw [← h.1]
        exact Or.inr rfl

lemma runCore_write_error
    (d : List SensorRaw × List (LogLevel × String) × Option Nat)
    (c : List RawProd × List (LogLevel × String) × Option Nat)
    (a : WeatherData × List (LogLevel × String))
    (e : String) (store : List Record) (res : RunResult) (st : List Record)
    (h : runCore d c a (Except.error e) store = Except.ok (res, st)) :
    res.status = "COMPLETED_FAILURE" ∧
    (LogLevel.error, "Erreur FATALE lors du chargement") ∈ res.logs ∧
    st = store := by
  cases htp : transform_production_rows c.1 with
  | error e2 =>
    simp only [runCore] at h
    rw [htp] at h
    simp at h
  | ok tp =>
    cases hta : transform_api_rows a.1
        (listSet ((transform_sensor_rows d.1 ++ tp).map Record.turbine_id))
        "api_weather" with
    | error e2 =>
      simp only [runCore] at h
      rw [htp] at h
      dsimp only at h
      rw [hta] at h
      simp at h
    | ok ta =>
      simp only [runCore] at h
      rw [htp] at h
      dsimp only at h
      rw [hta] at h
      dsimp only at h
      simp only [Except.ok.injEq, Prod.mk.injEq] at h
      refine ⟨by rw [← h.1], ?_, h.2.symm⟩
      rw [← h.1]
      simp

lemma runCore_write_ok
    (d : List SensorRaw × List (LogLevel × String) × Option Nat)
    (c : List RawProd × List (LogLevel × String) × Option Nat)
    (a : WeatherData × List (LogLevel × String))
    (u : Unit) (store : List Record) (res : RunResult) (st : List Record)
    (h : runCore d c a (Except.ok u) store = Except.ok (res, st)) :
    res.status = "COMPLETED_SUCCESS" := by
  cases htp : transform_production_rows c.1 with
  | error e2 =>
    simp only [runCore] at h
    rw [htp] at h
    simp at h
  | ok tp =>
    cases hta : transform_api_rows a.1
        (listSet ((transform_sensor_rows d.1 ++ tp).map Record.turbine_id))
        "api_weather" with
    | error e2 =>
      simp only [runCore] at h
      rw [htp] at h
      dsimp only at h
      rw [hta] at h
      simp at h
    | ok ta =>
      simp only [runCore] at h
      rw [htp] at h
      dsimp only at h
      rw [hta] at h
      dsimp only at h
      simp only [Except.ok.injEq, Prod.mk.injEq] at h
      rw [← h.1]

/-- **C9, counterexample.** A run whose DB extraction fails (all else healthy)
completes with the DB source contributing zero records — but its failure log
line is at `error` level, not the `warning` level the claim asserts for every
source: the complete log list is the single error entry. -/
theorem c9_db_error_level_counterexample :
    run c9dbFailEnv [] = Except.ok (c9dbFailRes, []) ∧
    c9dbFailRes.logs = [(LogLevel.error, "Echec de l extraction DB")] ∧
    c9dbFailRes.status = "COMPLETED_SUCCESS" := by
  refine ⟨rfl, rfl, rfl⟩

/-- **C9, amended.** Any single extraction failure degrades to a
zero-record contribution for that source and the run continues: the final
status, resulting store, and loaded-row count are exactly those of the same
run with that source returning no rows — the CSV and API failures are logged
as warnings, the DB failure as an error.  A storage-layer failure during the
write is fatal to the run: the status is `COMPLETED_FAILURE`, the fatal error
is logged, and the store is unchanged; with a healthy write the run completes
in success status. -/
theorem c9_amended_degradation_and_fatal_write (env : RunEnv) (store : List Record) :
    (∀ e, env.dbFetch = Except.error e →
      runStatus (run env store)
          = runStatus (run { env with dbFetch := Except.ok [] } store) ∧
      runStore (run env store)
          = runStore (run { env with dbFetch := Except.ok [] } store) ∧
      runChargees (run env store)
          = runChargees (run { env with dbFetch := Except.ok [] } store) ∧
      (∀ res st, run env store = Except.ok (res, st) →
        (LogLevel.error, "Echec de l extraction DB") ∈ res.logs)) ∧
    (∀ e, env.csvFetch = Except.error e →
      runStatus (run env store)
          = runStatus (run { env with csvFetch := Except.ok [] } store) ∧
      runStore (run env store)
          = runStore (run { env with csvFetch := Except.ok [] } store) ∧
      runChargees (run env store)
          = runChargees (run { env with csvFetch := Except.ok [] } store) ∧
      (∀ res st, run env store = Except.ok (res, st) →
        (LogLevel.warning, "Echec de l extraction CSV") ∈ res.logs)) ∧
    (∀ e, env.apiFetch = Except.error e →
      runStatus (run env store)
          = runStatus (run { env with apiFetch := Except.ok ⟨none⟩ } store) ∧
      runStore (run env store)
          = runStore (run { env with apiFetch := Except.ok ⟨none⟩ } store) ∧
      runChargees (run env store)
          = runChargees (run { env with apiFetch := Except.ok ⟨none⟩ } store) ∧
      (∀ res st, run env store = Except.ok (res, st) →
        (LogLevel.warning, "Echec de l extraction API") ∈ res.logs)) ∧
    (∀ e res st, env.dbWrite = Except.error e → run env store = Except.ok (res, st) →
      res.status = "COMPLETED_FAILURE" ∧
      (LogLevel.error, "Erreur FATALE lors du chargement") ∈ res.logs ∧
      st = store) ∧
    (∀ u res st, env.dbWrite = Except.ok u → run env store = Except.ok (res, st) →
      res.status = "COMPLETED_SUCCESS") := by
  obtain ⟨db, csv, api, wr⟩ := env
  refine ⟨?_, ?_, ?_, ?_, ?_⟩
  · intro e he
    have he' : db = Except.error e := he
    subst he'
    have hc := runCore_proj_congr (dbPartOf (Except.error e)) (dbPartOf (Except.ok []))
      (csvPartOf csv) (csvPartOf csv) (apiPartOf api) (apiPartOf api) wr store rfl rfl rfl
    refine ⟨hc.1, hc.2.1, hc.2.2, ?_⟩
    intro res st hok
    have hshape := runCore_logs_shape (dbPartOf (Except.error e)) (csvPartOf csv)
      (apiPartOf api) wr store res st hok
    rcases hshape with hsh | hsh <;> simp [hsh, dbPartOf]
  · intro e he
    have he' : csv = Except.error e := he
    subst he'
    have hc := runCore_proj_congr (dbPartOf db) (dbPartOf db)
      (csvPartOf (Except.error e)) (csvPartOf (Except.ok []))
      (apiPartOf api) (apiPartOf api) wr store rfl rfl rfl
    refine ⟨hc.1, hc.2.1, hc.2.2, ?_⟩
    intro res st hok
    have hshape := runCore_logs_shape (dbPartOf db) (csvPartOf (Except.error e))
      (apiPartOf api) wr store res st hok
    rcases hshape with hsh | hsh <;> simp [hsh, csvPartOf]
  · intro e he
    have he' : api = Except.error e := he
    subst he'
    have hc := runCore_proj_congr (dbPartOf db) (dbPartOf db)
      (csvPartOf csv) (csvPartOf csv)
      (apiPartOf (Except.error e)) (apiPartOf (Except.ok ⟨none⟩)) wr store rfl rfl rfl
    refine ⟨hc.1, hc.2.1, hc.2.2, ?_⟩
    intro res st hok
    have hshape := runCore_logs_shape (dbPartOf db) (csvPartOf csv)
      (apiPartOf (Except.error e)) wr store res st hok
    rcases hshape with hsh | hsh <;> simp [hsh, apiPartOf]
  · intro e res st he hok
    have he' : wr = Except.error e := he
    subst he'
    exact runCore_write_error (dbPartOf db) (csvPartOf csv) (apiPartOf api) e store res st hok
  · intro u res st he hok
    have he' : wr = Except.ok u := he
    subst he'
    exact runCore_write_ok (dbPartOf db) (csvPartOf csv) (apiPartOf api) u store res st hok

/-- Witness for the amended C9, at the two concrete runs: a failing DB
extraction leaves status/store/count those of an empty DB contribution with
the error-level log present, and a failing storage write ends in
`COMPLETED_FAILURE` with the store untouched. -/
theorem c9_amended_degradation_witness :
    runStatus (run c9dbFailEnv [])
        = runStatus (run { c9dbFailEnv with dbFetch := Except.ok [] } []) ∧
    (LogLevel.error, "Echec de l extraction DB") ∈ c9dbFailRes.logs ∧
    c9writeFailRes.status = "COMPLETED_FAILURE" ∧
    (LogLevel.error, "Erreur FATALE lors du chargement") ∈ c9writeFailRes.logs := by
  have h1 := (c9_amended_degradation_and_fatal_write c9dbFailEnv []).1
    "connection refused" rfl
  have h2 := (c9_amended_degradation_and_fatal_write c9writeFailEnv []).2.2.2.1
    "constraint violation" c9writeFailRes [] rfl (by rfl)
  exact ⟨h1.1, h1.2.2.2 c9dbFailRes [] (by rfl), h2.1, h2.2.1⟩

end Pipeline
